import Mathlib

/-
Verification of the filtering / aggregation logic of `src/app.py`
(a pandas + streamlit dashboard over a table of program applicants).

The embedding models a pandas DataFrame row as an `Applicant` record whose
cells are `Option String` (`none` models a SQL NULL / pandas NaN cell; the
spec's data model declares all five referenced columns to be strings).
The sidebar widget state is a `Criteria` record.  Every pandas primitive
the script uses (`isin`, `str.contains`, elementwise `!=`, `groupby(...).size()`,
`nunique`) is modelled cell-by-cell below, following pandas semantics for
null cells (`isin` never matches a null against a list of strings,
`str.contains(..., na=False)` maps a null cell to False, `!= "N/A"` is True
on a null cell, `nunique` and `groupby` drop nulls).

pandas `str.contains` treats the pattern as a regular expression
(`regex=True` is the default, and lines 68/70 do not override it), so the
user's search text is matched by Python's `re.search`.  The embedding does
not model the full `re` engine; instead it models the search on the
fragment where `re.search(pat, s)` provably coincides with literal
substring search — patterns containing none of the `re` metacharacters
(`regexFreePat` below) — and every theorem about the text filters is
restricted to that fragment by an explicit hypothesis.  On patterns WITH
metacharacters the program performs genuine regex matching (and raises on
an invalid pattern), which is outside the scope of the statements proved
here.
-/

/-- One row of the `zippy_applicants` table, restricted to the five columns
the script references.  A cell is `none` when the database value is NULL
(pandas NaN). -/
structure Applicant where
  state : Option String
  city : Option String
  zipcode : Option String
  naics_code : Option String
  zone_result : Option String
deriving DecidableEq

/-- The sidebar widget state of `src/app.py` lines 45-53: two multiselects,
two text inputs and one checkbox. -/
structure Criteria where
  state_filter : List String
  city_filter : String
  zip_filter : String
  naics_filter : List String
  ez_only : Bool
deriving DecidableEq

/-- Does the character list start with the given pattern (second argument)? -/
def startsWithChars : List Char → List Char → Bool
  | _, [] => true
  | [], _ :: _ => false
  | a :: l, b :: p => decide (a = b) && startsWithChars l p

/-- Does the character list (first argument) contain the pattern (second
argument) as a contiguous segment?  This is literal substring containment. -/
def containsChars : List Char → List Char → Bool
  | [], p => p.isEmpty
  | a :: l, p => startsWithChars (a :: l) p || containsChars l p

/-- Lowercasing of a character list (model of Python's `str.lower`). -/
def lowerChars (l : List Char) : List Char := l.map Char.toLower

/-- The characters Python's `re` module treats as special outside a
character class: `. ^ $ * + ? { } [ ] \ | ( )`. -/
def pythonRegexSpecial (ch : Char) : Bool :=
  ch == '.' || ch == '^' || ch == '$' || ch == '*' || ch == '+' || ch == '?' ||
  ch == '\x7b' || ch == '\x7d' || ch == '[' || ch == ']' || ch == '\\' ||
  ch == '|' || ch == '(' || ch == ')'

/-- A search text with no `re` metacharacter: on such patterns
`re.search(pat, s)` (what pandas `str.contains` runs with its default
`regex=True`) succeeds exactly when `pat` occurs in `s` as a literal
substring, so the literal model below is faithful on this fragment. -/
def regexFreePat (pat : String) : Bool :=
  pat.data.all (fun ch => !(pythonRegexSpecial ch))

/-- Model of pandas `Series.str.contains(pat, case=..., na=False)` on a single
cell, valid for patterns free of `re` metacharacters (`regexFreePat`), on
which Python's `re.search` is literal substring search: a null cell is
mapped to `False` (`na=False`); otherwise substring search, case-sensitively
or not according to `caseSensitive` (`re.IGNORECASE` on the literal fragment
is containment after case-folding both sides).  The city filter of
`src/app.py` line 68 passes `case=False`; the zipcode filter of line 70
leaves the default `case=True`.  Every theorem about the text filters
carries a `regexFreePat` hypothesis confining it to this model's domain of
validity. -/
def strContainsCell (v : Option String) (pat : String) (caseSensitive : Bool) : Bool :=
  match v with
  | none => false
  | some s =>
    if caseSensitive then containsChars s.data pat.data
    else containsChars (lowerChars s.data) (lowerChars pat.data)

/-- Model of pandas `Series.isin(values)` on a single cell: a null cell never
matches a list of strings. -/
def isinCell (v : Option String) (values : List String) : Bool :=
  match v with
  | some s => values.contains s
  | none => false

/-- Model of pandas elementwise `series != lit` on a single cell: a null cell
compares not-equal to any string literal. -/
def neCell (v : Option String) (lit : String) : Bool := decide (v ≠ some lit)

/-- Line 65-66: `if state_filter: filtered_df = filtered_df[filtered_df['state'].isin(state_filter)]`.
An empty multiselect list is falsy in Python, so the step is skipped. -/
def stateStep (c : Criteria) (df : List Applicant) : List Applicant :=
  if c.state_filter.isEmpty then df
  else df.filter (fun r => isinCell r.state c.state_filter)

/-- Line 67-68: `if city_filter: ... str.contains(city_filter, case=False, na=False)`.
An empty text input is falsy in Python, so the step is skipped. -/
def cityStep (c : Criteria) (df : List Applicant) : List Applicant :=
  if c.city_filter = "" then df
  else df.filter (fun r => strContainsCell r.city c.city_filter false)

/-- Line 69-70: `if zip_filter: ... str.contains(zip_filter, na=False)` —
note the absence of `case=False`: this search is case-sensitive. -/
def zipStep (c : Criteria) (df : List Applicant) : List Applicant :=
  if c.zip_filter = "" then df
  else df.filter (fun r => strContainsCell r.zipcode c.zip_filter true)

/-- Line 71-72: `if naics_filter: ... isin(naics_filter)`. -/
def naicsStep (c : Criteria) (df : List Applicant) : List Applicant :=
  if c.naics_filter.isEmpty then df
  else df.filter (fun r => isinCell r.naics_code c.naics_filter)

/-- Line 73-74: `if ez_only: filtered_df = filtered_df[filtered_df['zone_result'] != 'N/A']`. -/
def ezStep (c : Criteria) (df : List Applicant) : List Applicant :=
  if c.ez_only then df.filter (fun r => neCell r.zone_result "N/A") else df

/-- Lines 64-74: the whole filtering block.  `df.copy()` is the identity in a
pure embedding; the five conditional mask filters are applied in source
order. -/
def filtered_df (df : List Applicant) (c : Criteria) : List Applicant :=
  ezStep c (naicsStep c (zipStep c (cityStep c (stateStep c df))))

/-- The criteria with every widget in its unset state: no states, empty city
text, empty zip text, no NAICS codes, checkbox unticked. -/
def emptyCriteria : Criteria :=
  { state_filter := [], city_filter := "", zip_filter := "", naics_filter := [], ez_only := false }

/-- Line 78: `len(filtered_df)` (the "Candidates Found" metric). -/
def candidatesFound (f : List Applicant) : Nat := f.length

/-- Line 79: `len(filtered_df[filtered_df['zone_result'] != 'N/A'])`
(the "EZ Eligible" metric). -/
def ezEligible (f : List Applicant) : Nat :=
  (f.filter (fun r => neCell r.zone_result "N/A")).length

/-- Line 80: `filtered_df['naics_code'].nunique()` (the "Unique NAICS
Sectors" metric).  pandas `nunique` counts distinct non-null values. -/
def uniqueNaicsSectors (f : List Applicant) : Nat :=
  (f.filterMap (fun r => r.naics_code)).dedup.length

/-- Lexicographic "less or equal" on character lists, the ascending order in
which pandas sorts string group keys. -/
def charsLe : List Char → List Char → Bool
  | [], _ => true
  | _ :: _, [] => false
  | a :: as, b :: bs => if a = b then charsLe as bs else decide (a < b)

/-- String comparison used for the sorted group keys. -/
def stringLeB (a b : String) : Bool := charsLe a.data b.data

/-- Lexicographic comparison on (state, naics_code) pairs, as pandas sorts a
two-column group key. -/
def pairLeB (p q : String × String) : Bool :=
  if p.1 = q.1 then stringLeB p.2 q.2 else stringLeB p.1 q.1

/-- Model of `f.groupby(key).size().reset_index(name='Count')` (lines 86-91):
pandas forms one group per distinct non-null key value (`dropna=True`, the
default, silently drops rows whose key is null), sorts the group keys
ascending (`sort=True`, the default) and attaches to each key the number of
rows carrying it. -/
def groupbySize {α : Type} [DecidableEq α] (le : α → α → Bool)
    (key : Applicant → Option α) (f : List Applicant) : List (α × Nat) :=
  ((f.filterMap key).dedup.insertionSort (fun a b => le a b = true)).map
    (fun k => (k, (f.filterMap key).count k))

/-- Line 87: `filtered_df.groupby('state').size().reset_index(name='Count')`. -/
def summaryState (f : List Applicant) : List (String × Nat) :=
  groupbySize stringLeB (fun r => r.state) f

/-- Line 89: `filtered_df.groupby('naics_code').size().reset_index(name='Count')`. -/
def summaryNaics (f : List Applicant) : List (String × Nat) :=
  groupbySize stringLeB (fun r => r.naics_code) f

/-- The key of line 91's `groupby(['state', 'naics_code'])`: pandas drops a
row from the grouping when ANY of its key cells is null. -/
def bothKey (r : Applicant) : Option (String × String) :=
  match r.state, r.naics_code with
  | some s, some n => some (s, n)
  | _, _ => none

/-- Line 91: `filtered_df.groupby(['state', 'naics_code']).size().reset_index(name='Count')`. -/
def summaryBoth (f : List Applicant) : List ((String × String) × Nat) :=
  groupbySize pairLeB bothKey f

/-- First record of the spec §8 scenario dataset
(`{state:"CA", naics:"541", zone:"N/A"}`; the scenario leaves city and
zipcode unspecified, so they are taken as null). -/
def scenarioA : Applicant :=
  { state := some "CA", city := none, zipcode := none,
    naics_code := some "541", zone_result := some "N/A" }

/-- Second scenario record (`{state:"CA", naics:"541", zone:"EZ1"}`). -/
def scenarioB : Applicant :=
  { state := some "CA", city := none, zipcode := none,
    naics_code := some "541", zone_result := some "EZ1" }

/-- Third scenario record (`{state:"NY", naics:"722", zone:"N/A"}`). -/
def scenarioC : Applicant :=
  { state := some "NY", city := none, zipcode := none,
    naics_code := some "722", zone_result := some "N/A" }

/-- The three-record scenario dataset of spec §8. -/
def scenarioDataset : List Applicant := [scenarioA, scenarioB, scenarioC]

/-
Model of the top-level error boundary (lines 38-101).  The whole script body
runs inside one `try`; streamlit renders each element at the moment the
corresponding `st.*` call executes, so elements emitted before an exception
stay visible and the `except` arm appends a single `st.error` box.

A pandas column access `df['c']` raises `KeyError` when the query result
lacks column `c`; the model therefore tracks which of the five referenced
columns the loaded table has (`RawTable.cols`).  Row VALUES never influence
which elements render or whether an exception occurs — the spec's data model
fixes all five columns as string-typed, and on string columns every
row-level operation the script performs is total — so the boundary model
carries the column schema only.
-/

/-- The five column names the script references. -/
inductive Col
  | state | city | zipcode | naics_code | zone_result
deriving DecidableEq

/-- The pandas column-name string of a `Col`. -/
def Col.pandasName : Col → String
  | .state => "state"
  | .city => "city"
  | .zipcode => "zipcode"
  | .naics_code => "naics_code"
  | .zone_result => "zone_result"

/-- The schema of the table returned by `load_data`: which of the five
referenced columns are present in the query result. -/
structure RawTable where
  cols : List Col
deriving DecidableEq

/-- The user-visible elements the script can emit, in source order:
sidebar widgets (lines 42-58), metrics (lines 77-80), grouped-summary
widgets and chart (lines 83-93), and the data table (lines 96-98). -/
inductive UIElem
  | searchFiltersHeader | stateMultiselect | cityInput | zipInput
  | naicsMultiselect | ezCheckbox | controlsHeader | reloadButton
  | metricCandidates | metricEligible | metricNaics
  | groupedSummaryHeader | groupBySelect | barChart | detailsHeader | dataTable
deriving DecidableEq

/-- The "Group By" selectbox value (line 84). -/
inductive GroupOption
  | byState | byNaics | byBoth
deriving DecidableEq

/-- Line 101: `st.error(f"Could not connect to Azure SQL: {e}")` — whatever
exception reaches the boundary is rendered into this one message. -/
def errMsg (e : String) : String := "Could not connect to Azure SQL: " ++ e

/-- How Python stringifies `KeyError('c')`. -/
def keyErrStr (c : Col) : String := "'" ++ c.pandasName ++ "'"

/-- One render pass of the script body (lines 38-101) under the error
boundary: given the outcome of `load_data()`, the widget state and the
grouping choice, it returns the list of elements emitted before the pass
ended and the error message, if the pass ended in the `except` arm.
Column accesses occur in source order: `df['state']` at line 45 (before the
state multiselect renders, since it computes that widget's options),
`df['naics_code']` at line 50, then during filtering `df['city']` at line 68
and `df['zipcode']` at line 70 only when the respective text filter is
non-empty, `df['zone_result']` at line 74 only when `ez_only` is set, and
`df['zone_result']` again at line 79 between the first and second metric.
Accesses to columns already touched earlier in the pass cannot raise and are
not repeated.  The reload button (lines 58-60) is modelled as un-pressed;
the grouping choice cannot fail (both group columns were already accessed),
so `g` does not affect the outcome. -/
def renderApp (loadResult : Except String RawTable) (c : Criteria) (g : GroupOption) :
    List UIElem × Option String :=
  match loadResult with
  | .error e => ([], some (errMsg e))
  | .ok df =>
    let o1 := [UIElem.searchFiltersHeader]
    if Col.state ∈ df.cols then
      let o2 := o1 ++ [UIElem.stateMultiselect, UIElem.cityInput, UIElem.zipInput]
      if Col.naics_code ∈ df.cols then
        let o3 := o2 ++ [UIElem.naicsMultiselect, UIElem.ezCheckbox,
                         UIElem.controlsHeader, UIElem.reloadButton]
        if c.city_filter = "" ∨ Col.city ∈ df.cols then
          if c.zip_filter = "" ∨ Col.zipcode ∈ df.cols then
            if c.ez_only = false ∨ Col.zone_result ∈ df.cols then
              let o4 := o3 ++ [UIElem.metricCandidates]
              if Col.zone_result ∈ df.cols then
                (o4 ++ [UIElem.metricEligible, UIElem.metricNaics,
                        UIElem.groupedSummaryHeader, UIElem.groupBySelect,
                        UIElem.barChart, UIElem.detailsHeader, UIElem.dataTable], none)
              else (o4, some (errMsg (keyErrStr Col.zone_result)))
            else (o3, some (errMsg (keyErrStr Col.zone_result)))
          else (o3, some (errMsg (keyErrStr Col.zipcode)))
        else (o3, some (errMsg (keyErrStr Col.city)))
      else (o2, some (errMsg (keyErrStr Col.naics_code)))
    else (o1, some (errMsg (keyErrStr Col.state)))

/-- The state step's effect on one row, as a total predicate: the row passes
when the criterion is unset or the cell matches. -/
def statePred (c : Criteria) (r : Applicant) : Bool :=
  c.state_filter.isEmpty || isinCell r.state c.state_filter

/-- The city step's effect on one row as a total predicate. -/
def cityPred (c : Criteria) (r : Applicant) : Bool :=
  decide (c.city_filter = "") || strContainsCell r.city c.city_filter false

/-- The zipcode step's effect on one row as a total predicate. -/
def zipPred (c : Criteria) (r : Applicant) : Bool :=
  decide (c.zip_filter = "") || strContainsCell r.zipcode c.zip_filter true

/-- The NAICS step's effect on one row as a total predicate. -/
def naicsPred (c : Criteria) (r : Applicant) : Bool :=
  c.naics_filter.isEmpty || isinCell r.naics_code c.naics_filter

/-- The eligibility step's effect on one row as a total predicate. -/
def ezPred (c : Criteria) (r : Applicant) : Bool :=
  !c.ez_only || neCell r.zone_result "N/A"

/-- The conjunction of the five per-step predicates: one row of `df` survives
the whole filtering block iff it satisfies `bigPred`. -/
def bigPred (c : Criteria) (r : Applicant) : Bool :=
  statePred c r && cityPred c r && zipPred c r && naicsPred c r && ezPred c r

/-- Labels for the five conditional filter steps of lines 64-74. -/
inductive FilterStep
  | stateS | cityS | zipS | naicsS | ezS
deriving DecidableEq

/-- Run one labelled step. -/
def runStep (c : Criteria) (df : List Applicant) : FilterStep → List Applicant
  | .stateS => stateStep c df
  | .cityS => cityStep c df
  | .zipS => zipStep c df
  | .naicsS => naicsStep c df
  | .ezS => ezStep c df

/-- Run a sequence of labelled steps left to right. -/
def runSteps (c : Criteria) (l : List FilterStep) (df : List Applicant) : List Applicant :=
  l.foldl (runStep c) df

/-- The source order of the five steps. -/
def sourceOrder : List FilterStep :=
  [.stateS, .cityS, .zipS, .naicsS, .ezS]

/-- The per-row predicate of one labelled step. -/
def stepPred (c : Criteria) (s : FilterStep) (r : Applicant) : Bool :=
  match s with
  | .stateS => statePred c r
  | .cityS => cityPred c r
  | .zipS => zipPred c r
  | .naicsS => naicsPred c r
  | .ezS => ezPred c r

/-- Case-insensitive substring containment of a search string in an optional
field, as the spec words it ("text filters use case-insensitive substring
containment, treating absent/null field values as non-matching"). -/
def ciContains (v : Option String) (pat : String) : Bool :=
  match v with
  | none => false
  | some s => containsChars (lowerChars s.data) (lowerChars pat.data)

/-- Case-sensitive substring containment of a search string in an optional
field, null treated as non-matching. -/
def csContains (v : Option String) (pat : String) : Bool :=
  match v with
  | none => false
  | some s => containsChars s.data pat.data

/-- A record whose city contains "spring" case-insensitively (spec §8's
"Springfield" example). -/
def springRec : Applicant :=
  { state := some "IL", city := some "Springfield", zipcode := some "62701",
    naics_code := some "541", zone_result := some "N/A" }

/-- A record whose zipcode cell contains letters, separating case-sensitive
from case-insensitive search. -/
def zipCaseRec : Applicant :=
  { state := some "CA", city := some "Los Angeles", zipcode := some "AB123",
    naics_code := some "541", zone_result := some "EZ1" }

/-- The spec §8 scenario dataset filtered by state = ["CA"]. -/
def scenarioCAFiltered : List Applicant :=
  filtered_df scenarioDataset { emptyCriteria with state_filter := ["CA"] }

/-- A record whose zone_result cell is null. -/
def nullZoneRec : Applicant :=
  { state := some "CA", city := some "Fresno", zipcode := some "93701",
    naics_code := some "722", zone_result := none }

/-- The criteria with only the eligibility checkbox set. -/
def ezTrueCriteria : Criteria := { emptyCriteria with ez_only := true }

/-- A record whose state cell is null. -/
def nullStateRec : Applicant :=
  { state := none, city := some "Reno", zipcode := some "89501",
    naics_code := some "541", zone_result := some "N/A" }

/-- The load succeeds but the query result lacks the `naics_code` column. -/
def missingNaicsTable : RawTable :=
  { cols := [Col.state, Col.city, Col.zipcode, Col.zone_result] }

theorem stateStep_eq_filter (c : Criteria) (df : List Applicant) :
    stateStep c df = df.filter (statePred c) := by
  unfold stateStep statePred
  cases h : c.state_filter.isEmpty <;> simp [h]

theorem cityStep_eq_filter (c : Criteria) (df : List Applicant) :
    cityStep c df = df.filter (cityPred c) := by
  unfold cityStep cityPred
  by_cases h : c.city_filter = "" <;> simp [h]

theorem zipStep_eq_filter (c : Criteria) (df : List Applicant) :
    zipStep c df = df.filter (zipPred c) := by
  unfold zipStep zipPred
  by_cases h : c.zip_filter = "" <;> simp [h]

theorem naicsStep_eq_filter (c : Criteria) (df : List Applicant) :
    naicsStep c df = df.filter (naicsPred c) := by
  unfold naicsStep naicsPred
  cases h : c.naics_filter.isEmpty <;> simp [h]

theorem ezStep_eq_filter (c : Criteria) (df : List Applicant) :
    ezStep c df = df.filter (ezPred c) := by
  unfold ezStep ezPred
  cases h : c.ez_only <;> simp [h]

/-- The whole filtering block is one boolean-mask filter by the conjunction
of the five per-step predicates. -/
theorem filtered_df_eq_filter (df : List Applicant) (c : Criteria) :
    filtered_df df c = df.filter (bigPred c) := by
  unfold filtered_df
  rw [stateStep_eq_filter, cityStep_eq_filter, zipStep_eq_filter,
    naicsStep_eq_filter, ezStep_eq_filter,
    List.filter_filter, List.filter_filter, List.filter_filter, List.filter_filter]
  refine List.filter_congr fun r _ => ?_
  unfold bigPred
  cases statePred c r <;> cases cityPred c r <;> cases zipPred c r <;>
    cases naicsPred c r <;> cases ezPred c r <;> rfl

theorem runStep_eq_filter (c : Criteria) (df : List Applicant) (s : FilterStep) :
    runStep c df s = df.filter (stepPred c s) := by
  cases s with
  | stateS => exact stateStep_eq_filter c df
  | cityS => exact cityStep_eq_filter c df
  | zipS => exact zipStep_eq_filter c df
  | naicsS => exact naicsStep_eq_filter c df
  | ezS => exact ezStep_eq_filter c df

/-- Running any sequence of labelled steps filters by the conjunction of
their predicates. -/
theorem runSteps_eq_filter (c : Criteria) (l : List FilterStep) (df : List Applicant) :
    runSteps c l df = df.filter (fun r => l.all (fun s => stepPred c s r)) := by
  induction l generalizing df with
  | nil => simp [runSteps]
  | cons s t ih =>
    have h1 : runSteps c (s :: t) df = runSteps c t (runStep c df s) := rfl
    rw [h1, ih, runStep_eq_filter, List.filter_filter]
    refine List.filter_congr fun r _ => ?_
    simp only [List.all_cons]
    cases stepPred c s r <;> cases t.all (fun s => stepPred c s r) <;> rfl

/-- Running the steps in source order is the filtering block. -/
theorem runSteps_sourceOrder (c : Criteria) (df : List Applicant) :
    runSteps c sourceOrder df = filtered_df df c := rfl

/-- A list's `all` is invariant under permutation of the list. -/
theorem all_of_perm {α : Type} {l l' : List α} (f : α → Bool) (h : l.Perm l') :
    l.all f = l'.all f := by
  have hiff : (l.all f = true) ↔ (l'.all f = true) := by
    simp only [List.all_eq_true]
    exact ⟨fun hh x hx => hh x (h.symm.subset hx), fun hh x hx => hh x (h.subset hx)⟩
  cases h1 : l.all f <;> cases h2 : l'.all f <;> simp_all

/-- For any list `l`, summing the multiplicity of each element of `l.dedup`
in `l` recovers the length of `l`. -/
theorem sum_dedup_count {α : Type} [DecidableEq α] (l : List α) :
    (l.dedup.map (fun k => l.count k)).sum = l.length := by
  have h := Multiset.toFinset_sum_count_eq (l : Multiset α)
  simp only [Multiset.toFinset, Multiset.coe_count, Multiset.coe_card] at h
  rw [← h]
  simp [Finset.sum, Multiset.coe_dedup]

/-- The counts attached by `groupbySize` sum to the number of rows whose key
cell is non-null. -/
theorem groupbySize_sum {α : Type} [DecidableEq α] (le : α → α → Bool)
    (key : Applicant → Option α) (f : List Applicant) :
    ((groupbySize le key f).map Prod.snd).sum = (f.filterMap key).length := by
  unfold groupbySize
  rw [List.map_map]
  have hcomp : (Prod.snd ∘ fun k => (k, (f.filterMap key).count k)) =
      (fun k => (f.filterMap key).count k) := rfl
  rw [hcomp]
  have hperm :
      (((f.filterMap key).dedup.insertionSort (fun a b => le a b = true)).map
        (fun k => (f.filterMap key).count k)).Perm
      ((f.filterMap key).dedup.map (fun k => (f.filterMap key).count k)) :=
    (List.perm_insertionSort _ _).map _
  rw [hperm.sum_eq, sum_dedup_count]

/-- The group keys produced by `groupbySize` are, up to order, exactly the
distinct non-null key values of the rows. -/
theorem groupbySize_keys_perm {α : Type} [DecidableEq α] (le : α → α → Bool)
    (key : Applicant → Option α) (f : List Applicant) :
    ((groupbySize le key f).map Prod.fst).Perm (f.filterMap key).dedup := by
  unfold groupbySize
  rw [List.map_map]
  have : (Prod.fst ∘ fun k => (k, (f.filterMap key).count k)) = id := rfl
  rw [this, List.map_id]
  exact List.perm_insertionSort _ _

/-- Every group produced by `groupbySize` has a positive count, and its key
occurs among the rows' key cells. -/
theorem groupbySize_pos {α : Type} [DecidableEq α] (le : α → α → Bool)
    (key : Applicant → Option α) (f : List Applicant) :
    ∀ p ∈ groupbySize le key f, 0 < p.2 ∧ some p.1 ∈ f.map key := by
  intro p hp
  unfold groupbySize at hp
  obtain ⟨k, hk, rfl⟩ := List.mem_map.1 hp
  rw [List.mem_insertionSort, List.mem_dedup] at hk
  refine ⟨List.count_pos_iff.2 hk, ?_⟩
  obtain ⟨r, hr, hkr⟩ := List.mem_filterMap.1 hk
  exact List.mem_map.2 ⟨r, hr, hkr⟩

/-- C1 counterexample: the claim says the zipcode text filter retains exactly
the records whose zipcode contains the search string CASE-INSENSITIVELY, but
line 70 omits `case=False`, so the search is case-sensitive: searching
zipcodes for "ab" retains nothing although "AB123" contains "ab"
case-insensitively.  (The pattern "ab" has no `re` metacharacter, so the
program's `regex=True` search and the literal model agree at this input.) -/
theorem claim_C1_counterexample :
    filtered_df [zipCaseRec] { emptyCriteria with zip_filter := "ab" } ≠
      [zipCaseRec].filter (fun r => ciContains r.zipcode "ab") := by decide

/-- C1 (amended): for every dataset and every non-empty search string free
of `re` metacharacters (pandas `str.contains` runs the text as a regular
expression, `regex=True` being the default; on metacharacter-free text that
search is literal substring search, while on other text the program does
genuine regex matching, outside this statement's scope), the city text
filter retains exactly the records whose city contains the search string
case-INsensitively, while the zipcode text filter retains exactly the
records whose zipcode contains the search string case-SENSITIVELY; a record
whose field value is null is never retained by either. -/
theorem claim_C1_text_filters (df : List Applicant) (pat : String) (h : pat ≠ "")
    (hfree : regexFreePat pat = true) :
    filtered_df df { emptyCriteria with city_filter := pat } =
      df.filter (fun r => ciContains r.city pat) ∧
    filtered_df df { emptyCriteria with zip_filter := pat } =
      df.filter (fun r => csContains r.zipcode pat) ∧
    ciContains none pat = false ∧ csContains none pat = false := by
  refine ⟨?_, ?_, rfl, rfl⟩
  · show cityStep _ df = _
    rw [cityStep_eq_filter]
    refine List.filter_congr fun r _ => ?_
    simp only [cityPred, h, decide_eq_true_eq]
    cases r.city <;> simp [strContainsCell, ciContains, h]
  · show zipStep _ df = _
    rw [zipStep_eq_filter]
    refine List.filter_congr fun r _ => ?_
    simp only [zipPred, h, decide_eq_true_eq]
    cases r.zipcode <;> simp [strContainsCell, csContains, h]

/-- C1 witness: the theorem applied to the "Springfield" record and the
search string "spring". -/
theorem claim_C1_witness :
    ("spring" ≠ "") ∧ regexFreePat "spring" = true ∧
    (filtered_df [springRec] { emptyCriteria with city_filter := "spring" } =
        [springRec].filter (fun r => ciContains r.city "spring") ∧
      filtered_df [springRec] { emptyCriteria with zip_filter := "spring" } =
        [springRec].filter (fun r => csContains r.zipcode "spring") ∧
      ciContains none "spring" = false ∧ csContains none "spring" = false) :=
  ⟨by decide, by decide,
    claim_C1_text_filters [springRec] "spring" (by decide) (by decide)⟩

/-- C3: with every criterion unset the filtering block returns the dataset
unchanged, and each individually unset criterion makes its own filter step
the identity (imposes no restriction). -/
theorem claim_C3_empty_criteria_identity (df : List Applicant) (c : Criteria) :
    filtered_df df emptyCriteria = df ∧
    (c.state_filter = [] → stateStep c df = df) ∧
    (c.city_filter = "" → cityStep c df = df) ∧
    (c.zip_filter = "" → zipStep c df = df) ∧
    (c.naics_filter = [] → naicsStep c df = df) ∧
    (c.ez_only = false → ezStep c df = df) := by
  refine ⟨rfl, fun h => ?_, fun h => ?_, fun h => ?_, fun h => ?_, fun h => ?_⟩ <;>
    simp [stateStep, cityStep, zipStep, naicsStep, ezStep, h]

/-- C3 witness: the theorem applied to the scenario dataset and the unset
criteria. -/
theorem claim_C3_witness :
    filtered_df scenarioDataset emptyCriteria = scenarioDataset ∧
    stateStep emptyCriteria scenarioDataset = scenarioDataset ∧
    cityStep emptyCriteria scenarioDataset = scenarioDataset ∧
    zipStep emptyCriteria scenarioDataset = scenarioDataset ∧
    naicsStep emptyCriteria scenarioDataset = scenarioDataset ∧
    ezStep emptyCriteria scenarioDataset = scenarioDataset := by
  have h := claim_C3_empty_criteria_identity scenarioDataset emptyCriteria
  exact ⟨h.1, h.2.1 rfl, h.2.2.1 rfl, h.2.2.2.1 rfl, h.2.2.2.2.1 rfl, h.2.2.2.2.2 rfl⟩

/-- C4: activating the eligibility checkbox composes the other active
criteria with the mask `zone_result != "N/A"`, so the result is exactly the
records passing the other criteria whose zone_result is not the literal
sentinel; on the spec §8 scenario dataset with only `ez_only` set, the
result is the single record with zone "EZ1". -/
theorem claim_C4_ez_filter :
    (∀ (df : List Applicant) (c : Criteria),
      filtered_df df { c with ez_only := true } =
        (filtered_df df { c with ez_only := false }).filter
          (fun r => neCell r.zone_result "N/A")) ∧
    filtered_df scenarioDataset { emptyCriteria with ez_only := true } = [scenarioB] := by
  exact ⟨fun df c => rfl, by decide⟩

/-- C5: the three metrics are the filtered row count, the count of rows with
`zone_result != "N/A"` (never exceeding the row count), and the number of
distinct non-null naics_code values; on the scenario dataset filtered by
state = ["CA"] they are 2, 1 and 1, and the group-by-state summary is
{CA: 2}. -/
theorem claim_C5_metrics :
    (∀ F : List Applicant, candidatesFound F = F.length) ∧
    (∀ F : List Applicant,
      ezEligible F = F.countP (fun r => neCell r.zone_result "N/A")) ∧
    (∀ F : List Applicant, ezEligible F ≤ candidatesFound F) ∧
    (∀ F : List Applicant,
      uniqueNaicsSectors F = (F.filterMap (fun r => r.naics_code)).toFinset.card) ∧
    candidatesFound scenarioCAFiltered = 2 ∧
    ezEligible scenarioCAFiltered = 1 ∧
    uniqueNaicsSectors scenarioCAFiltered = 1 ∧
    summaryState scenarioCAFiltered = [("CA", 2)] := by
  refine ⟨fun F => rfl, fun F => ?_, fun F => ?_, fun F => ?_, by decide, by decide,
    by decide, by decide⟩
  · rw [List.countP_eq_length_filter]; rfl
  · exact (List.filter_sublist F).length_le
  · rw [List.card_toFinset]; rfl

/-- C6: the filtering block is idempotent: applying the same criteria to an
already-filtered dataset changes nothing. -/
theorem claim_C6_idempotent (df : List Applicant) (c : Criteria) :
    filtered_df (filtered_df df c) c = filtered_df df c := by
  have L := filtered_df_eq_filter
  rw [L, L, List.filter_filter]
  refine List.filter_congr fun r _ => ?_
  cases bigPred c r <;> rfl

/-- C7: the five filter steps compose conjunctively — the block equals one
filter by the conjunction of the per-step predicates — and running the steps
in any permutation of the source order produces the same filtered dataset. -/
theorem claim_C7_order_invariance (df : List Applicant) (c : Criteria)
    (l : List FilterStep) (h : l.Perm sourceOrder) :
    runSteps c l df = filtered_df df c ∧
    filtered_df df c = df.filter (bigPred c) := by
  refine ⟨?_, filtered_df_eq_filter df c⟩
  rw [runSteps_eq_filter, ← runSteps_sourceOrder c df, runSteps_eq_filter]
  exact List.filter_congr fun r _ => all_of_perm _ h

/-- C7 witness: the theorem applied to the reversed step order on the
scenario dataset. -/
theorem claim_C7_witness :
    runSteps emptyCriteria [.ezS, .naicsS, .zipS, .cityS, .stateS] scenarioDataset =
      filtered_df scenarioDataset emptyCriteria ∧
    filtered_df scenarioDataset emptyCriteria =
      scenarioDataset.filter (bigPred emptyCriteria) :=
  claim_C7_order_invariance scenarioDataset emptyCriteria
    [.ezS, .naicsS, .zipS, .cityS, .stateS] (by decide)

/-- C9: the filtered dataset is a sublist of the input: every retained
record is a record of the input, each input position is used at most once,
relative order is preserved, and the length can only shrink.  (The source
filters a `df.copy()` with boolean masks, so the input itself is a value
that is never mutated; in this pure embedding `filtered_df` is a function
and the input is unchanged by construction.) -/
theorem claim_C9_sublist (df : List Applicant) (c : Criteria) :
    (filtered_df df c).Sublist df ∧ (filtered_df df c).length ≤ df.length := by
  rw [filtered_df_eq_filter]
  exact ⟨List.filter_sublist df, (List.filter_sublist df).length_le⟩

/-- C10: a record with a null zone_result is treated as eligible: the
`zone_result != "N/A"` comparison holds on a null cell (pandas semantics),
so the `ez_only` filter step retains such a record and the "EZ Eligible"
metric counts it. -/
theorem claim_C10_null_zone (r : Applicant) (df f : List Applicant) (c : Criteria)
    (hz : r.zone_result = none) (hez : c.ez_only = true) :
    neCell r.zone_result "N/A" = true ∧
    ezStep c (r :: df) = r :: ezStep c df ∧
    ezEligible (r :: f) = ezEligible f + 1 := by
  refine ⟨by rw [hz]; rfl, ?_, ?_⟩
  · simp [ezStep, hez, List.filter_cons, hz, neCell]
  · simp [ezEligible, List.filter_cons, hz, neCell]

/-- C10 witness: the theorem applied to a concrete null-zone record. -/
theorem claim_C10_witness :
    neCell nullZoneRec.zone_result "N/A" = true ∧
    ezStep ezTrueCriteria [nullZoneRec] = nullZoneRec :: ezStep ezTrueCriteria [] ∧
    ezEligible [nullZoneRec] = ezEligible [] + 1 :=
  claim_C10_null_zone nullZoneRec [] [] ezTrueCriteria rfl rfl

/-- C2 counterexample: pandas `groupby` drops rows whose grouping key is
null (`dropna=True`, the default), so on a filtered dataset containing a
record with a null state the group-by-state counts sum to 0, not to the
dataset's length 1. -/
theorem claim_C2_counterexample :
    ((summaryState (filtered_df [nullStateRec] emptyCriteria)).map Prod.snd).sum ≠
      (filtered_df [nullStateRec] emptyCriteria).length := by decide

/-- C2 (amended): for every filtered dataset and every grouping key among
state, naics_code and the (state, naics_code) pair, the summary counts sum
to the number of records whose key cells are all non-null (rather than to
the full length: records with a null key are silently dropped from the
grouping), the groups present are exactly the distinct non-null key values
(or value-pairs) occurring, and no group has a zero count. -/
theorem claim_C2_summaries (F : List Applicant) :
    (((summaryState F).map Prod.snd).sum = (F.filterMap (fun r => r.state)).length ∧
      ((summaryState F).map Prod.fst).Perm (F.filterMap (fun r => r.state)).dedup ∧
      ∀ p ∈ summaryState F, 0 < p.2) ∧
    (((summaryNaics F).map Prod.snd).sum = (F.filterMap (fun r => r.naics_code)).length ∧
      ((summaryNaics F).map Prod.fst).Perm (F.filterMap (fun r => r.naics_code)).dedup ∧
      ∀ p ∈ summaryNaics F, 0 < p.2) ∧
    (((summaryBoth F).map Prod.snd).sum = (F.filterMap bothKey).length ∧
      ((summaryBoth F).map Prod.fst).Perm (F.filterMap bothKey).dedup ∧
      ∀ p ∈ summaryBoth F, 0 < p.2) :=
  ⟨⟨groupbySize_sum _ _ F, groupbySize_keys_perm _ _ F,
      fun p hp => (groupbySize_pos _ _ F p hp).1⟩,
    ⟨groupbySize_sum _ _ F, groupbySize_keys_perm _ _ F,
      fun p hp => (groupbySize_pos _ _ F p hp).1⟩,
    ⟨groupbySize_sum _ _ F, groupbySize_keys_perm _ _ F,
      fun p hp => (groupbySize_pos _ _ F p hp).1⟩⟩

/-- C2 witness: the theorem applied to the scenario dataset, with the
positive-count conjunct discharged at the concrete group ("CA", 2). -/
theorem claim_C2_witness :
    (("CA", 2) ∈ summaryState scenarioDataset) ∧
    ((summaryState scenarioDataset).map Prod.snd).sum =
      (scenarioDataset.filterMap (fun r => r.state)).length ∧
    0 < (("CA", 2) : String × Nat).2 :=
  ⟨by decide, (claim_C2_summaries scenarioDataset).1.1,
    (claim_C2_summaries scenarioDataset).1.2.2 ("CA", 2) (by decide)⟩

/-- C8 counterexample: a failure during downstream processing (the query
result lacks the `naics_code` column, so line 50 raises a KeyError) is
caught and surfaced as one message, but the sidebar elements emitted before
the failure — including the state multiselect of the filter UI — HAVE been
produced, contradicting "on failure none of the filter UI, metrics, chart,
or table outputs is produced". -/
theorem claim_C8_counterexample :
    ((renderApp (.ok missingNaicsTable) emptyCriteria .byState).2 ≠ none) ∧
    UIElem.stateMultiselect ∈ (renderApp (.ok missingNaicsTable) emptyCriteria .byState).1 := by
  decide

/-- C8 (amended): every failure is caught at the single top-level boundary
and surfaced as (at most) one error message; on LOAD failure none of the
filter UI, metrics, chart, or table is produced; a failure during
downstream processing aborts the pass before its remaining outputs — in
particular the final data table is never produced on any failure — but
elements already emitted before the failure point remain. -/
theorem claim_C8_error_boundary :
    (∀ (e : String) (c : Criteria) (g : GroupOption),
      renderApp (.error e) c g = ([], some (errMsg e))) ∧
    (∀ (res : Except String RawTable) (c : Criteria) (g : GroupOption)
      (out : List UIElem) (err : Option String),
      renderApp res c g = (out, err) → err ≠ none → UIElem.dataTable ∉ out) := by
  constructor
  · intro e c g; rfl
  · intro res c g out err hEq hne
    cases res with
    | error e =>
      simp only [renderApp] at hEq
      cases hEq
      simp
    | ok t =>
      simp only [renderApp] at hEq
      split_ifs at hEq <;> cases hEq <;>
        first
          | exact absurd rfl hne
          | decide

/-- C8 witness: the boundary theorem applied to the concrete
missing-column table. -/
theorem claim_C8_witness :
    UIElem.dataTable ∉
      [UIElem.searchFiltersHeader, UIElem.stateMultiselect, UIElem.cityInput, UIElem.zipInput] :=
  claim_C8_error_boundary.2 (.ok missingNaicsTable) emptyCriteria .byState
    [UIElem.searchFiltersHeader, UIElem.stateMultiselect, UIElem.cityInput, UIElem.zipInput]
    (some (errMsg (keyErrStr Col.naics_code))) (by decide) (by decide)

